import Mathlib

/-!
# World clock page: shallow embedding and verification

Shallow embedding of the multi-timezone clock component in `src/app/page.tsx`:
the static timezone catalog, the selection-set toggle, the catalog lookup
helpers, and the two formatting functions.  The formatting functions delegate
to the host's `Intl`-backed `Date.prototype.toLocaleTimeString` /
`toLocaleDateString`; those platform functions are not part of the repository,
so they are modelled here after their ECMA-402 semantics, parametrised by an
explicit host environment (zone database, system zone, system locale).
-/

namespace WorldClock

/-- Embeds `interface Timezone` (src/app/page.tsx lines 5-9): a catalog entry
with a unique id, a display name and an IANA zone identifier. -/
structure Timezone where
  id : String
  name : String
  zone : String
deriving DecidableEq, Repr

/-- Embeds the static catalog `TIMEZONES` (src/app/page.tsx lines 11-21).
The first entry's zone is `Intl.DateTimeFormat().resolvedOptions().timeZone`,
i.e. the host's system zone, so the catalog is parametrised by it. -/
def TIMEZONES (systemZone : String) : List Timezone :=
  [ ⟨"local", "本地时间", systemZone⟩,
    ⟨"beijing", "北京", "Asia/Shanghai"⟩,
    ⟨"tokyo", "东京", "Asia/Tokyo"⟩,
    ⟨"london", "伦敦", "Europe/London"⟩,
    ⟨"paris", "巴黎", "Europe/Paris"⟩,
    ⟨"new_york", "纽约", "America/New_York"⟩,
    ⟨"los_angeles", "洛杉矶", "America/Los_Angeles"⟩,
    ⟨"dubai", "迪拜", "Asia/Dubai"⟩,
    ⟨"sydney", "悉尼", "Australia/Sydney"⟩ ]

/-- Embeds the initial value of the `selectedTimezones` state
(src/app/page.tsx line 25): `["local", "new_york", "london"]`. -/
def selectedTimezonesInitial : List String := ["local", "new_york", "london"]

/-- Embeds `getTimezoneName` (src/app/page.tsx lines 55-57):
`TIMEZONES.find(tz => tz.id === timezone)?.name || timezone`.
JavaScript `||` falls through on any falsy value, so an empty-string name
would also fall back to the input; the `none` branch models `undefined`. -/
def getTimezoneName (systemZone : String) (timezone : String) : String :=
  match (TIMEZONES systemZone).find? (fun tz => tz.id == timezone) with
  | some tz => if tz.name = "" then timezone else tz.name
  | none => timezone

/-- Embeds `getTimezoneZone` (src/app/page.tsx lines 59-61):
`TIMEZONES.find(tz => tz.id === timezone)?.zone || timezone`. -/
def getTimezoneZone (systemZone : String) (timezone : String) : String :=
  match (TIMEZONES systemZone).find? (fun tz => tz.id == timezone) with
  | some tz => if tz.zone = "" then timezone else tz.zone
  | none => timezone

/-- Embeds `toggleTimezone` (src/app/page.tsx lines 63-71) as the pure state
transformer it applies to `selectedTimezones`:
if the id is present and the list has more than one element, filter it out;
if it is present in a list of length ≤ 1, leave the state unchanged (no
`setSelectedTimezones` call); otherwise append it at the end. -/
def toggleTimezone (selectedTimezones : List String) (timezoneId : String) : List String :=
  if selectedTimezones.contains timezoneId then
    if selectedTimezones.length > 1 then
      selectedTimezones.filter (fun id => id != timezoneId)
    else
      selectedTimezones
  else
    selectedTimezones ++ [timezoneId]

/-- An absolute point in time, as milliseconds since the Unix epoch
(the value wrapped by a JavaScript `Date`). -/
abbrev Instant := Int

/-- Modelled from the spec (§4.2, §7) and ECMA-402: the error thrown by
`Intl.DateTimeFormat` when the `timeZone` option names a zone the host's
zone database does not recognise (a JavaScript `RangeError`; the spec calls
it `InvalidZoneError`). -/
structure RangeError where
  message : String
deriving DecidableEq, Repr

/-- Modelled from ECMA-402: the host environment a `toLocale*String` call
runs in.  `zoneRules` is the host's zone database: it maps a recognised zone
identifier to its offset function (minutes east of UTC at a given instant)
and an unrecognised one to `none`.  `systemZone` and `systemLocale` are the
host defaults used when a call omits the corresponding argument. -/
structure IntlEnv where
  zoneRules : String → Option (Instant → Int)
  systemZone : String
  systemLocale : String

/-- Left-pad a number below 100 to two digits (the `"2-digit"` option). -/
def pad2 (n : Nat) : String :=
  if n < 10 then "0" ++ toString n else toString n

/-- Modelled from ECMA-402: render the wall-clock time of `epochMs` in a zone
whose offset is `offsetMinutes`, as `HH:MM:SS` (options `hour/minute/second:
"2-digit"`, `hour12: false`; every locale the page uses renders these numeric
fields with Latin digits, so the pattern is locale-independent here). -/
def renderTime24 (epochMs : Int) (offsetMinutes : Int) : String :=
  let secOfDay := (((epochMs + offsetMinutes * 60000).fdiv 1000).emod 86400).toNat
  pad2 (secOfDay / 3600) ++ ":" ++ pad2 (secOfDay % 3600 / 60) ++ ":" ++ pad2 (secOfDay % 60)

/-- Civil date (year, month, day) from a count of days since 1970-01-01,
by the standard proleptic-Gregorian conversion. -/
def civilFromDays (days : Int) : Int × Nat × Nat :=
  let z := days + 719468
  let era := z.fdiv 146097
  let doe := (z - era * 146097).toNat
  let yoe := (doe - doe / 1460 + doe / 36524 - doe / 146096) / 365
  let doy := doe - (365 * yoe + yoe / 4 - yoe / 100)
  let mp := (5 * doy + 2) / 153
  let d := doy - (153 * mp + 2) / 5 + 1
  let m := if mp < 10 then mp + 3 else mp - 9
  (((yoe : Int) + era * 400) + (if m ≤ 2 then 1 else 0), m, d)

/-- Chinese weekday names, indexed from Sunday (`getDay()` convention). -/
def weekdayNamesZh : List String :=
  ["星期日", "星期一", "星期二", "星期三", "星期四", "星期五", "星期六"]

/-- Modelled from ECMA-402: render the civil date of `epochMs` in a zone
whose offset is `offsetMinutes` under the given locale, with options
`year: "numeric", month: "long", day: "numeric", weekday: "long"`.
The `zh-CN` pattern is `Y年M月D日星期W`; other locales get a deterministic
fallback pattern (no locale the page passes ever reaches it). -/
def renderDateLong (locale : String) (epochMs : Int) (offsetMinutes : Int) : String :=
  let localDays := (epochMs + offsetMinutes * 60000).fdiv 86400000
  let c := civilFromDays localDays
  let wd := ((localDays + 4).emod 7).toNat
  if locale = "zh-CN" then
    toString c.1 ++ "年" ++ toString c.2.1 ++ "月" ++ toString c.2.2 ++ "日" ++
      (weekdayNamesZh.getD wd "")
  else
    toString c.1 ++ "-" ++ toString c.2.1 ++ "-" ++ toString c.2.2 ++ " [" ++ toString wd ++ "]"

/-- Modelled from ECMA-402: `Date.prototype.toLocaleTimeString(locale,
{hour: "2-digit", minute: "2-digit", second: "2-digit", hour12: false,
timeZone})`.  An omitted locale or zone falls back to the host default; a
zone the host's database does not recognise throws a `RangeError` (no
silent fallback to the system zone). -/
def toLocaleTimeString (env : IntlEnv) (date : Instant) (locale : Option String)
    (timeZone : Option String) : Except RangeError String :=
  let zone := timeZone.getD env.systemZone
  let _loc := locale.getD env.systemLocale
  match env.zoneRules zone with
  | none => .error ⟨"Invalid time zone specified: " ++ zone⟩
  | some offset => .ok (renderTime24 date (offset date))

/-- Modelled from ECMA-402: `Date.prototype.toLocaleDateString(locale,
{year: "numeric", month: "long", day: "numeric", weekday: "long", timeZone})`,
with the same fallback and error behaviour as `toLocaleTimeString`. -/
def toLocaleDateString (env : IntlEnv) (date : Instant) (locale : Option String)
    (timeZone : Option String) : Except RangeError String :=
  let zone := timeZone.getD env.systemZone
  let loc := locale.getD env.systemLocale
  match env.zoneRules zone with
  | none => .error ⟨"Invalid time zone specified: " ++ zone⟩
  | some offset => .ok (renderDateLong loc date (offset date))

/-- Embeds `formatTime` (src/app/page.tsx lines 35-43): calls
`date.toLocaleTimeString("zh-CN", {... , timeZone: timezone})` — the locale
is the fixed constant `"zh-CN"` and the zone is always passed explicitly. -/
def formatTime (env : IntlEnv) (date : Instant) (timezone : String) :
    Except RangeError String :=
  toLocaleTimeString env date (some "zh-CN") (some timezone)

/-- Embeds `formatDate` (src/app/page.tsx lines 45-53): calls
`date.toLocaleDateString("zh-CN", {... , timeZone: timezone})`. -/
def formatDate (env : IntlEnv) (date : Instant) (timezone : String) :
    Except RangeError String :=
  toLocaleDateString env date (some "zh-CN") (some timezone)

/-- Modelled from the IANA time-zone database (2024 rules) for the zones of
the static catalog plus `"UTC"`: offset in minutes east of UTC at a given
instant.  The daylight-saving windows are the 2024 transition instants in
epoch milliseconds: America/New_York and America/Los_Angeles switch
2024-03-10 (to 07:00Z resp. 10:00Z) until 2024-11-03 (06:00Z resp. 09:00Z);
Europe/London and Europe/Paris switch 2024-03-31 01:00Z until 2024-10-27
01:00Z; Australia/Sydney leaves summer time 2024-04-06 16:00Z and re-enters
it 2024-10-05 16:00Z.  Any other identifier is unrecognised (`none`). -/
def zoneOffset2024 (zone : String) : Option (Instant → Int) :=
  if zone = "UTC" then some fun _ => 0
  else if zone = "Asia/Shanghai" then some fun _ => 480
  else if zone = "Asia/Tokyo" then some fun _ => 540
  else if zone = "Asia/Dubai" then some fun _ => 240
  else if zone = "America/New_York" then
    some fun t => if 1710054000000 ≤ t ∧ t < 1730613600000 then -240 else -300
  else if zone = "America/Los_Angeles" then
    some fun t => if 1710064800000 ≤ t ∧ t < 1730624400000 then -420 else -480
  else if zone = "Europe/London" then
    some fun t => if 1711846800000 ≤ t ∧ t < 1729990800000 then 60 else 0
  else if zone = "Europe/Paris" then
    some fun t => if 1711846800000 ≤ t ∧ t < 1729990800000 then 120 else 60
  else if zone = "Australia/Sydney" then
    some fun t => if 1712419200000 ≤ t ∧ t < 1728144000000 then 600 else 660
  else none

/-! ## Helper lemmas -/

/-- Unfolding `toggleTimezone` on a present id in a list of length > 1:
the branch that filters the id out. -/
theorem toggleTimezone_of_mem (S : List String) (x : String)
    (hx : x ∈ S) (hlen : 1 < S.length) :
    toggleTimezone S x = S.filter (fun id => id != x) := by
  simp [toggleTimezone, hx, hlen]

/-- Unfolding `toggleTimezone` on an absent id: the append branch. -/
theorem toggleTimezone_of_not_mem (S : List String) (x : String) (hx : x ∉ S) :
    toggleTimezone S x = S ++ [x] := by
  simp [toggleTimezone, hx]

/-- Unfolding `toggleTimezone` on a present id in a list of length ≤ 1:
no state update happens. -/
theorem toggleTimezone_of_mem_short (S : List String) (x : String)
    (hx : x ∈ S) (hlen : ¬ 1 < S.length) :
    toggleTimezone S x = S := by
  simp [toggleTimezone, hx, hlen]

/-- An id that is not among the catalog's ids makes the catalog search of the
lookup helpers come up empty. -/
theorem TIMEZONES_find_eq_none (systemZone id : String)
    (h : id ∉ (TIMEZONES systemZone).map Timezone.id) :
    (TIMEZONES systemZone).find? (fun tz => tz.id == id) = none := by
  rw [List.find?_eq_none]
  intro tz htz hbe
  exact h (List.mem_map.mpr ⟨tz, htz, eq_of_beq hbe⟩)

/-- One `toggleTimezone` step preserves non-emptiness and duplicate-freedom. -/
theorem toggle_invariant_step (S : List String) (x : String)
    (h1 : 1 ≤ S.length) (h2 : S.Nodup) :
    1 ≤ (toggleTimezone S x).length ∧ (toggleTimezone S x).Nodup := by
  by_cases hx : x ∈ S
  · by_cases hlen : 1 < S.length
    · rw [toggleTimezone_of_mem S x hx hlen, ← List.Nodup.erase_eq_filter h2]
      refine ⟨?_, h2.erase x⟩
      rw [List.length_erase_of_mem hx]
      omega
    · rw [toggleTimezone_of_mem_short S x hx hlen]
      exact ⟨h1, h2⟩
  · rw [toggleTimezone_of_not_mem S x hx]
    refine ⟨by simp, ?_⟩
    simp [List.nodup_append, h2, hx]

/-! ## Claim theorems -/

/-- C1: if the selection set has exactly one member and that member is `x`,
`toggle(x)` is a no-op — the single selected entry is never removed. -/
theorem toggleTimezone_singleton_noop (S : List String) (x : String)
    (hlen : S.length = 1) (hx : x ∈ S) :
    toggleTimezone S x = S := by
  obtain ⟨a, rfl⟩ := List.length_eq_one.mp hlen
  obtain rfl : x = a := by simpa using hx
  simp [toggleTimezone]

/-- Witness for C1: toggling `"local"` on the singleton `["local"]`. -/
theorem toggleTimezone_singleton_noop_witness :
    (["local"] : List String).length = 1 ∧
    toggleTimezone ["local"] "local" = ["local"] :=
  ⟨by decide, toggleTimezone_singleton_noop ["local"] "local" (by decide) (by decide)⟩

/-- C2: if the (duplicate-free) selection set has more than one member and
contains `x`, `toggle(x)` removes `x`: the result no longer contains `x`, is
exactly one element shorter, and is a sublist of `S` (so the remaining ids
keep their original relative order); it equals `S` with `x` deleted. -/
theorem toggleTimezone_removes (S : List String) (x : String)
    (hnd : S.Nodup) (hx : x ∈ S) (hlen : 1 < S.length) :
    x ∉ toggleTimezone S x ∧
    (toggleTimezone S x).length + 1 = S.length ∧
    List.Sublist (toggleTimezone S x) S ∧
    toggleTimezone S x = S.erase x := by
  have he : toggleTimezone S x = S.erase x := by
    rw [toggleTimezone_of_mem S x hx hlen, List.Nodup.erase_eq_filter hnd]
  rw [he]
  refine ⟨hnd.not_mem_erase, ?_, List.erase_sublist x S, rfl⟩
  rw [List.length_erase_of_mem hx]
  omega

/-- Witness for C2: removing `"new_york"` from the default selection (the
spec's scenario `toggle("new_york")` on `["local","new_york","london"]`). -/
theorem toggleTimezone_removes_witness :
    "new_york" ∉ toggleTimezone ["local", "new_york", "london"] "new_york" ∧
    (toggleTimezone ["local", "new_york", "london"] "new_york").length + 1 =
      (["local", "new_york", "london"] : List String).length ∧
    List.Sublist (toggleTimezone ["local", "new_york", "london"] "new_york")
      ["local", "new_york", "london"] ∧
    toggleTimezone ["local", "new_york", "london"] "new_york" =
      (["local", "new_york", "london"] : List String).erase "new_york" :=
  toggleTimezone_removes ["local", "new_york", "london"] "new_york"
    (by decide) (by decide) (by decide)

/-- C3: toggling an id that is not in the selection set appends it at the
end, increasing the length by exactly 1 and leaving the existing entries (and
their positions) untouched. -/
theorem toggleTimezone_appends (S : List String) (y : String) (h : y ∉ S) :
    toggleTimezone S y = S ++ [y] ∧ (toggleTimezone S y).length = S.length + 1 := by
  rw [toggleTimezone_of_not_mem S y h]
  simp

/-- Witness for C3: the spec's scenario `toggle("tokyo")` on
`["local","london"]` yields `["local","london","tokyo"]`. -/
theorem toggleTimezone_appends_witness :
    toggleTimezone ["local", "london"] "tokyo" = ["local", "london"] ++ ["tokyo"] ∧
    (toggleTimezone ["local", "london"] "tokyo").length =
      (["local", "london"] : List String).length + 1 :=
  toggleTimezone_appends ["local", "london"] "tokyo" (by decide)

/-- C4 counterexample: on `["local","new_york"]` (size 2 ≥ 2), toggling
`"local"` twice yields `["new_york","local"]`, not the original order —
the removed id is re-appended at the end, so the double toggle is not the
identity on sequences. -/
theorem toggleTimezone_double_counterexample :
    toggleTimezone (toggleTimezone ["local", "new_york"] "local") "local" =
      ["new_york", "local"] ∧
    toggleTimezone (toggleTimezone ["local", "new_york"] "local") "local" ≠
      ["local", "new_york"] := by decide

/-- C4 (amended): on a duplicate-free selection set of size ≥ 2, toggling `x`
twice yields a permutation of the original set (same members, same size);
the sequence itself is the original with `x` deleted and re-appended at the
end when `x` was present, and exactly the original when `x` was absent — so
the original order is restored only if `x` was absent or already last. -/
theorem toggleTimezone_double (S : List String) (x : String)
    (hnd : S.Nodup) (hlen : 2 ≤ S.length) :
    List.Perm (toggleTimezone (toggleTimezone S x) x) S ∧
    toggleTimezone (toggleTimezone S x) x =
      (if x ∈ S then S.erase x ++ [x] else S) := by
  by_cases hx : x ∈ S
  · rw [toggleTimezone_of_mem S x hx (by omega), ← List.Nodup.erase_eq_filter hnd,
      toggleTimezone_of_not_mem _ x hnd.not_mem_erase, if_pos hx]
    exact ⟨(List.perm_append_singleton x (S.erase x)).trans
      (List.perm_cons_erase hx).symm, rfl⟩
  · rw [toggleTimezone_of_not_mem S x hx]
    have hmem : x ∈ S ++ [x] := by simp
    have hlen2 : 1 < (S ++ [x]).length := by
      simp only [List.length_append, List.length_singleton]
      omega
    rw [toggleTimezone_of_mem _ x hmem hlen2, if_neg hx, List.filter_append]
    have h1 : S.filter (fun id => id != x) = S :=
      List.filter_eq_self.mpr fun a ha => bne_iff_ne.mpr fun he => hx (he ▸ ha)
    have h2 : ([x] : List String).filter (fun id => id != x) = [] := by simp
    rw [h1, h2, List.append_nil]
    exact ⟨List.Perm.refl S, rfl⟩

/-- Witness for C4 (amended): toggling `"new_york"` twice on the default
selection moves it from the middle to the end. -/
theorem toggleTimezone_double_witness :
    List.Perm
      (toggleTimezone (toggleTimezone ["local", "new_york", "london"] "new_york")
        "new_york") ["local", "new_york", "london"] ∧
    toggleTimezone (toggleTimezone ["local", "new_york", "london"] "new_york")
      "new_york" =
      (if "new_york" ∈ (["local", "new_york", "london"] : List String) then
        (["local", "new_york", "london"] : List String).erase "new_york" ++ ["new_york"]
      else ["local", "new_york", "london"]) :=
  toggleTimezone_double ["local", "new_york", "london"] "new_york"
    (by decide) (by decide)

/-- C5 counterexample: the uncataloged id `"atlantis"` is not rejected —
both lookup helpers return the raw id instead of failing, and a toggle
carrying it changes the selection set by appending it. -/
theorem unknownId_accepted_counterexample :
    getTimezoneZone "UTC" "atlantis" = "atlantis" ∧
    getTimezoneName "UTC" "atlantis" = "atlantis" ∧
    toggleTimezone selectedTimezonesInitial "atlantis" =
      ["local", "new_york", "london", "atlantis"] ∧
    toggleTimezone selectedTimezonesInitial "atlantis" ≠ selectedTimezonesInitial := by
  decide

/-- C5 (amended): for an id outside the static catalog no error is raised:
the descriptor lookups fall back to the raw id itself, and a toggle carrying
the id is processed like any other — if it is not currently selected it is
appended to the selection set (a state change, not a rejection). -/
theorem unknownId_fallback_toggle (systemZone id : String)
    (h : id ∉ (TIMEZONES systemZone).map Timezone.id)
    (S : List String) (hS : id ∉ S) :
    getTimezoneName systemZone id = id ∧
    getTimezoneZone systemZone id = id ∧
    toggleTimezone S id = S ++ [id] := by
  have hf := TIMEZONES_find_eq_none systemZone id h
  refine ⟨?_, ?_, toggleTimezone_of_not_mem S id hS⟩
  · simp [getTimezoneName, hf]
  · simp [getTimezoneZone, hf]

/-- Witness for C5 (amended): `"atlantis"` with the default selection. -/
theorem unknownId_fallback_toggle_witness :
    getTimezoneName "UTC" "atlantis" = "atlantis" ∧
    getTimezoneZone "UTC" "atlantis" = "atlantis" ∧
    toggleTimezone ["local", "new_york", "london"] "atlantis" =
      ["local", "new_york", "london"] ++ ["atlantis"] :=
  unknownId_fallback_toggle "UTC" "atlantis" (by decide)
    ["local", "new_york", "london"] (by decide)

/-- C6: for every instant and every zone identifier that the host's zone
database does not recognise, both render operations fail with the invalid
zone error instead of producing output (in particular they do not fall back
to the system-local zone, because the zone option is always passed). -/
theorem format_invalid_zone_error (env : IntlEnv) (date : Instant) (timezone : String)
    (h : env.zoneRules timezone = none) :
    formatTime env date timezone =
      Except.error ⟨"Invalid time zone specified: " ++ timezone⟩ ∧
    formatDate env date timezone =
      Except.error ⟨"Invalid time zone specified: " ++ timezone⟩ := by
  constructor <;>
    simp [formatTime, formatDate, toLocaleTimeString, toLocaleDateString, h]

/-- Witness for C6: the made-up zone `"Mars/Crater"` against the 2024 zone
database. -/
theorem format_invalid_zone_error_witness :
    zoneOffset2024 "Mars/Crater" = none ∧
    (formatTime ⟨zoneOffset2024, "UTC", "en-US"⟩ 0 "Mars/Crater" =
       Except.error ⟨"Invalid time zone specified: " ++ "Mars/Crater"⟩ ∧
     formatDate ⟨zoneOffset2024, "UTC", "en-US"⟩ 0 "Mars/Crater" =
       Except.error ⟨"Invalid time zone specified: " ++ "Mars/Crater"⟩) :=
  ⟨rfl, format_invalid_zone_error ⟨zoneOffset2024, "UTC", "en-US"⟩ 0 "Mars/Crater" rfl⟩

/-- C7: rendering is deterministic for a fixed `(instant, zoneIdentifier)`
pair: the output of `formatTime`/`formatDate` does not depend on the host's
system zone or auto-detected system locale — the display locale is the fixed
constant `"zh-CN"` and the zone option is always passed explicitly, so two
hosts sharing a zone database render identically. -/
theorem format_env_independent (rules : String → Option (Instant → Int))
    (systemZone1 systemLocale1 systemZone2 systemLocale2 : String)
    (date : Instant) (timezone : String) :
    formatTime ⟨rules, systemZone1, systemLocale1⟩ date timezone =
      formatTime ⟨rules, systemZone2, systemLocale2⟩ date timezone ∧
    formatDate ⟨rules, systemZone1, systemLocale1⟩ date timezone =
      formatDate ⟨rules, systemZone2, systemLocale2⟩ date timezone :=
  ⟨rfl, rfl⟩

/-- C8: starting from the default selection `["local","new_york","london"]`,
after any finite sequence of toggle calls the selection set is still
non-empty and free of duplicate ids. -/
theorem selection_invariant (ids : List String) :
    1 ≤ (ids.foldl toggleTimezone selectedTimezonesInitial).length ∧
    (ids.foldl toggleTimezone selectedTimezonesInitial).Nodup := by
  have gen : ∀ (ids S : List String), 1 ≤ S.length → S.Nodup →
      1 ≤ (ids.foldl toggleTimezone S).length ∧ (ids.foldl toggleTimezone S).Nodup := by
    intro ids
    induction ids with
    | nil => exact fun S h1 h2 => ⟨h1, h2⟩
    | cons x xs ih =>
      intro S h1 h2
      have step := toggle_invariant_step S x h1 h2
      exact ih _ step.1 step.2
  exact gen ids selectedTimezonesInitial (by decide) (by decide)

/-- C9: at the instant 2024-07-01T12:00:00Z (epoch 1719835200000 ms), the
time text for `America/New_York` is `08:00:00` (UTC-4, EDT) and for
`Europe/London` is `13:00:00` (UTC+1, BST): the render uses each zone's
local daylight-saving offset at that instant, not a fixed offset. -/
theorem render_dst_offsets :
    formatTime ⟨zoneOffset2024, "UTC", "en-US"⟩ 1719835200000 "America/New_York" =
      Except.ok "08:00:00" ∧
    formatTime ⟨zoneOffset2024, "UTC", "en-US"⟩ 1719835200000 "Europe/London" =
      Except.ok "13:00:00" :=
  ⟨rfl, rfl⟩

/-- C10: for an id string that does not occur in the static catalog, both
lookup helpers return the input string itself (no error), so an uncataloged
id in the selection set is rendered with the raw id as display name and zone
identifier. -/
theorem lookup_fallback (systemZone id : String)
    (h : id ∉ (TIMEZONES systemZone).map Timezone.id) :
    getTimezoneName systemZone id = id ∧ getTimezoneZone systemZone id = id := by
  have hf := TIMEZONES_find_eq_none systemZone id h
  constructor
  · simp [getTimezoneName, hf]
  · simp [getTimezoneZone, hf]

/-- Witness for C10: the id `"mars"` is not in the catalog and falls through
both helpers unchanged. -/
theorem lookup_fallback_witness :
    getTimezoneName "Asia/Shanghai" "mars" = "mars" ∧
    getTimezoneZone "Asia/Shanghai" "mars" = "mars" :=
  lookup_fallback "Asia/Shanghai" "mars" (by decide)

end WorldClock
